import Mathlib

/-!
Shallow embedding of `migrate_data_between_servers.py`: a thin Odoo XML-RPC
client (authenticate, introspect fields, search-read, create) and two
orchestration functions (schema comparison, data migration).

Modelling conventions:
* A Python dict of record data is an association list `Rec V = List (String × V)`
  with first-match lookup (Python dicts have unique keys, so first-match agrees
  with dict lookup on every dict the remote API can return).
* The `fields_get` introspection result is `FieldsInfo = List (String × String)`:
  pairs of field name and type tag (the code only retains the `type` attribute).
* Remote calls are oracles passed in as parameters: the create endpoint is
  `oracle : Nat → Rec V → Except String Nat` (result of the i-th create call),
  the read endpoint's outcome is an `Except String (List (Rec V))` input.
  Raised Python exceptions become `Except.error`; the `logger.error` side
  channel is modelled as an explicit list of log messages where a claim
  mentions it.
* Python `set` operations (`-`, `&`) have unspecified iteration order when
  turned back into lists; the embedding fixes the canonical order given by
  `dedup`/`filter`, and set-level claims are stated up to membership.
-/

namespace OdooMigrate

/-- A record: mapping from field name to value, schema-less at this layer. -/
abbrev Rec (V : Type) := List (String × V)

/-- Dict lookup on an association list: the value at the first matching key. -/
def lookup {V : Type} : Rec V → String → Option V
  | [], _ => none
  | (k', v) :: rest, k => if k' = k then some v else lookup rest k

/-- Result of the remote `fields_get` introspection: field name paired with
its type tag (the code requests only the `type` attribute, lines 41-42/74-75). -/
abbrev FieldsInfo := List (String × String)

/-- Default exclusion list of line 39: `['many2many','one2many','many2one']`. -/
def defaultExcludeTypes : List String := ["many2many", "one2many", "many2one"]

/-- Line 39, `exclude_types = exclude_types or [...]`: Python `or` replaces a
falsy argument (None or the empty list) by the default relational set. -/
def resolveExclude (exclude_types : Option (List String)) : List String :=
  match exclude_types with
  | none => defaultExcludeTypes
  | some l => if l.isEmpty then defaultExcludeTypes else l

/-- Lines 39-44, `get_filtered_fields`: names of the fields whose type is not
in the (resolved) exclusion list, in introspection order. -/
def get_filtered_fields (fields_info : FieldsInfo)
    (exclude_types : Option (List String)) : List String :=
  (fields_info.filter (fun p => p.2 ∉ resolveExclude exclude_types)).map Prod.fst

/-- Lines 73-76, `get_fields_from_model`: the unfiltered field-name list,
`list(fields_info.keys())`. -/
def get_fields_from_model (fields_info : FieldsInfo) : List String :=
  fields_info.map Prod.fst

/-- Names of the fields whose type IS in the (resolved) exclusion list: the
complement that `get_filtered_fields` drops. Used to state the partition
property of the spec. -/
def excludedFieldNames (fields_info : FieldsInfo)
    (exclude_types : Option (List String)) : List String :=
  (fields_info.filter (fun p => p.2 ∈ resolveExclude exclude_types)).map Prod.fst

/-- Line 58, `fields = fields or self.get_filtered_fields(model)`: the field
list actually sent to `search_read` by `get_data_from_model`; a falsy `fields`
argument (None or `[]`) falls back to the default-filtered field list. -/
def resolveFields (fields_info : FieldsInfo) (fields : Option (List String)) :
    List String :=
  match fields with
  | none => get_filtered_fields fields_info none
  | some l => if l.isEmpty then get_filtered_fields fields_info none else l

/-- Result of `compare_field_lists` (lines 90-94). -/
structure FieldComparison where
  unique_to_list_1 : List String
  unique_to_list_2 : List String
  common_fields : List String
  deriving Repr, DecidableEq

/-- Python `set(l1) - set(l2)` rendered as a list in a canonical order. -/
def setDifference (l1 l2 : List String) : List String :=
  l1.dedup.filter (fun x => x ∉ l2)

/-- Python `set(l1) & set(l2)` rendered as a list in a canonical order. -/
def setIntersection (l1 l2 : List String) : List String :=
  l1.dedup.filter (fun x => x ∈ l2)

/-- Lines 81-94, `compare_field_lists`. -/
def compare_field_lists (fields_list_1 fields_list_2 : List String) :
    FieldComparison :=
  { unique_to_list_1 := setDifference fields_list_1 fields_list_2
    unique_to_list_2 := setDifference fields_list_2 fields_list_1
    common_fields := setIntersection fields_list_1 fields_list_2 }

/-- Line 155, the projection `{key: record[key] for key in common_fields if key
in record}` of one record onto the common-field keys. -/
def projectRecord {V : Type} (common_fields : List String) (record : Rec V) :
    Rec V :=
  common_fields.filterMap (fun k => (lookup record k).map (fun v => (k, v)))

/-- Observable outcome of `create_data_on_model`: the records passed to the
remote `create` endpoint in call order, the error log messages emitted, and
the returned list of created ids. -/
structure CreateOutcome (V : Type) where
  calls : List (Rec V)
  logs : List String
  ids : List Nat
  deriving Repr, DecidableEq

/-- The per-record loop of lines 106-114: the i-th create call's result is
`oracle i record`; a success appends the id, a failure logs and continues. -/
def createLoop {V : Type} (oracle : Nat → Rec V → Except String Nat) :
    Nat → List (Rec V) → CreateOutcome V
  | _, [] => ⟨[], [], []⟩
  | i, record :: rest =>
    let tail := createLoop oracle (i + 1) rest
    match oracle i record with
    | Except.ok created_id =>
      ⟨record :: tail.calls, tail.logs, created_id :: tail.ids⟩
    | Except.error e =>
      ⟨record :: tail.calls, ("Error creating data on model: " ++ e) :: tail.logs,
        tail.ids⟩

/-- Lines 96-114, `create_data_on_model`: the early return on falsy `data`
(line 103) followed by the per-record create loop. -/
def create_data_on_model {V : Type} (oracle : Nat → Rec V → Except String Nat)
    (data : List (Rec V)) : CreateOutcome V :=
  if data.isEmpty then ⟨[], [], []⟩ else createLoop oracle 0 data

/-- Message of line 26, raised when the server returns a falsy identity. -/
def authFailedMsg : String :=
  "Authentication failed: Please check your credentials."

/-- Lines 21-30, `authenticate`: the server's reply is `none` for an absent or
False identity and `some uid` for an integer reply; a falsy reply (absent or
0) raises, any other reply is returned. The except block logs and re-raises,
so the error propagates unchanged. -/
def authenticate (serverReply : Option Nat) : Except String Nat :=
  match serverReply with
  | none => Except.error authFailedMsg
  | some uid => if uid = 0 then Except.error authFailedMsg else Except.ok uid

/-- Session state held by an authenticated client (lines 10-19): connection
parameters plus the stored user id. -/
structure OdooClient where
  url : String
  db : String
  username : String
  password : String
  uid : Nat
  deriving Repr, DecidableEq

/-- Lines 10-19, `OdooClient.__init__`: stores the connection parameters and
sets `self.uid = self.authenticate()`; when `authenticate` raises, the
constructor propagates the error and no client value exists. -/
def OdooClient.init (url db username password : String)
    (serverReply : Option Nat) : Except String OdooClient :=
  match authenticate serverReply with
  | Except.error e => Except.error e
  | Except.ok uid => Except.ok ⟨url, db, username, password, uid⟩

/-- Argument tuple of an `execute_kw` RPC call as built at lines 41, 60, 74 and
109: `(self.db, self.uid, self.password, model, method)`. -/
structure RpcCall where
  db : String
  uid : Nat
  password : String
  model : String
  method : String
  deriving Repr, DecidableEq

/-- The `execute_kw` argument tuple a client builds for a given model and
method: every remote call after construction passes the stored `self.uid`. -/
def OdooClient.executeKwCall (c : OdooClient) (model method : String) :
    RpcCall :=
  ⟨c.db, c.uid, c.password, model, method⟩

/-- Lines 137-160, `migrate_data_between_servers`, at the data level: the
source read happens first (line 149) and its failure propagates through the
except block, so no create call is issued; on success the record list is
projected onto the common fields of the two schemas (lines 152-155) and handed
to `create_data_on_model` (line 157). Parameters: the two servers' `fields_get`
results, the outcome of the source `search_read`, and the destination create
endpoint. Returns the create calls issued and the overall result. -/
def migrate_data_between_servers {V : Type} (fi1 fi2 : FieldsInfo)
    (server1_read : Except String (List (Rec V)))
    (oracle : Nat → Rec V → Except String Nat) :
    List (Rec V) × Except String (List Nat) :=
  match server1_read with
  | Except.error e => ([], Except.error e)
  | Except.ok server1_data =>
    let comparison_result :=
      compare_field_lists (get_filtered_fields fi1 none)
        (get_filtered_fields fi2 none)
    let common_fields := comparison_result.common_fields
    let filtered_data := server1_data.map (projectRecord common_fields)
    let out := create_data_on_model oracle filtered_data
    (out.calls, Except.ok out.ids)

end OdooMigrate

namespace OdooMigrate

/-- C1: the projected record passed to the destination create call maps exactly
the keys that are both in the common-field set and present in the source
record, each bound to its unchanged source value; keys absent from the record
or outside the common set are dropped. (Line 155.) -/
theorem projection_exact {V : Type} (common : List String) (r : Rec V)
    (k : String) :
    lookup (projectRecord common r) k =
      if k ∈ common then lookup r k else none := by
  induction common with
  | nil => simp [projectRecord, lookup]
  | cons c cs ih =>
    simp only [projectRecord] at ih ⊢
    rw [List.filterMap_cons]
    cases hc : lookup r c with
    | none =>
      simp only [Option.map_none']
      rw [ih]
      by_cases hkc : k = c
      · subst hkc
        simp [hc]
      · simp [List.mem_cons, hkc]
    | some v =>
      simp only [Option.map_some']
      by_cases hck : c = k
      · subst hck
        simp [lookup, hc]
      · simp only [lookup, if_neg hck]
        rw [ih]
        have hkc : ¬ k = c := fun h => hck h.symm
        simp [List.mem_cons, hkc]

/-- Helper: the create loop issues exactly one call per input record, in input
order (a failing call does not stop the loop). -/
theorem createLoop_calls {V : Type} (oracle : Nat → Rec V → Except String Nat)
    (i : Nat) (data : List (Rec V)) :
    (createLoop oracle i data).calls = data := by
  induction data generalizing i with
  | nil => rfl
  | cons r rs ih =>
    cases h : oracle i r <;> simp [createLoop, h, ih]

/-- Helper: the ids returned by the create loop are exactly the successful
call results, in input order. -/
theorem createLoop_ids {V : Type} (oracle : Nat → Rec V → Except String Nat)
    (i : Nat) (data : List (Rec V)) :
    (createLoop oracle i data).ids =
      (data.enumFrom i).filterMap (fun p => (oracle p.1 p.2).toOption) := by
  induction data generalizing i with
  | nil => rfl
  | cons r rs ih =>
    cases h : oracle i r <;>
      simp [createLoop, h, ih, List.enumFrom_cons, Except.toOption]

/-- Helper: each record either yields an id or one failure log entry. -/
theorem createLoop_logs_length {V : Type}
    (oracle : Nat → Rec V → Except String Nat) (i : Nat)
    (data : List (Rec V)) :
    (createLoop oracle i data).logs.length +
      (createLoop oracle i data).ids.length = data.length := by
  induction data generalizing i with
  | nil => rfl
  | cons r rs ih =>
    have := ih (i + 1)
    cases h : oracle i r <;> simp [createLoop, h] <;> omega

/-- Helper: the early return of line 103 agrees with running the loop. -/
theorem create_data_on_model_eq_loop {V : Type}
    (oracle : Nat → Rec V → Except String Nat) (data : List (Rec V)) :
    create_data_on_model oracle data = createLoop oracle 0 data := by
  cases data <;> rfl

/-- C2: `create_data_on_model` attempts one create call per record in input
order; a failed call adds one log entry and the loop continues without
aborting or rollback; the returned ids are exactly those of the records whose
create succeeded, in input order. (Lines 96-114.) -/
theorem create_per_record_isolation {V : Type}
    (oracle : Nat → Rec V → Except String Nat) (data : List (Rec V)) :
    (create_data_on_model oracle data).calls = data ∧
    (create_data_on_model oracle data).ids =
      data.enum.filterMap (fun p => (oracle p.1 p.2).toOption) ∧
    (create_data_on_model oracle data).logs.length +
      (create_data_on_model oracle data).ids.length = data.length := by
  rw [create_data_on_model_eq_loop]
  exact ⟨createLoop_calls oracle 0 data, createLoop_ids oracle 0 data,
    createLoop_logs_length oracle 0 data⟩

/-- Witness for C2, the spec's example shape: three records where the second
create call fails still produce three calls, and id and log counts add up. -/
theorem create_per_record_isolation_witness :
    (create_data_on_model
        (fun i _ => if i = 1 then Except.error "fail" else Except.ok (100 + i))
        [[("name", (1 : Nat))], [("name", 2)], [("name", 3)]]).calls =
      [[("name", (1 : Nat))], [("name", 2)], [("name", 3)]] ∧
    (create_data_on_model
        (fun i _ => if i = 1 then Except.error "fail" else Except.ok (100 + i))
        [[("name", (1 : Nat))], [("name", 2)], [("name", 3)]]).ids =
      ([[("name", (1 : Nat))], [("name", 2)], [("name", 3)]]).enum.filterMap
        (fun p => ((fun i (_ : Rec Nat) =>
          if i = 1 then Except.error "fail" else Except.ok (100 + i))
            p.1 p.2).toOption) ∧
    (create_data_on_model
        (fun i _ => if i = 1 then Except.error "fail" else Except.ok (100 + i))
        [[("name", (1 : Nat))], [("name", 2)], [("name", 3)]]).logs.length +
      (create_data_on_model
        (fun i _ => if i = 1 then Except.error "fail" else Except.ok (100 + i))
        [[("name", (1 : Nat))], [("name", 2)], [("name", 3)]]).ids.length =
      ([[("name", (1 : Nat))], [("name", 2)], [("name", 3)]]).length :=
  create_per_record_isolation
    (fun i _ => if i = 1 then Except.error "fail" else Except.ok (100 + i))
    [[("name", (1 : Nat))], [("name", 2)], [("name", 3)]]

/-- C5: the common component of `compare_field_lists` is symmetric as a set,
and each unique component is disjoint from the common one. (Lines 81-94.) -/
theorem compare_common_symm_unique_disjoint (l1 l2 : List String) :
    (compare_field_lists l1 l2).common_fields.toFinset =
      (compare_field_lists l2 l1).common_fields.toFinset ∧
    (∀ x, x ∈ (compare_field_lists l1 l2).unique_to_list_1 →
      x ∉ (compare_field_lists l1 l2).common_fields) ∧
    (∀ x, x ∈ (compare_field_lists l1 l2).unique_to_list_2 →
      x ∉ (compare_field_lists l1 l2).common_fields) := by
  refine ⟨?_, ?_, ?_⟩
  · ext x
    simp only [compare_field_lists, setIntersection, List.mem_toFinset,
      List.mem_filter, List.mem_dedup, decide_eq_true_eq]
    tauto
  · intro x hx hmem
    simp only [compare_field_lists, setDifference, setIntersection,
      List.mem_filter, List.mem_dedup, decide_eq_true_eq] at hx hmem
    exact hx.2 hmem.2
  · intro x hx hmem
    simp only [compare_field_lists, setDifference, setIntersection,
      List.mem_filter, List.mem_dedup, decide_eq_true_eq] at hx hmem
    exact hx.2 hmem.1

/-- Witness for C5 at the spec's example field lists. -/
theorem compare_common_symm_witness :
    (compare_field_lists ["name", "color", "active"]
        ["name", "color", "description"]).common_fields.toFinset =
      (compare_field_lists ["name", "color", "description"]
        ["name", "color", "active"]).common_fields.toFinset ∧
    (∀ x, x ∈ (compare_field_lists ["name", "color", "active"]
        ["name", "color", "description"]).unique_to_list_1 →
      x ∉ (compare_field_lists ["name", "color", "active"]
        ["name", "color", "description"]).common_fields) ∧
    (∀ x, x ∈ (compare_field_lists ["name", "color", "active"]
        ["name", "color", "description"]).unique_to_list_2 →
      x ∉ (compare_field_lists ["name", "color", "active"]
        ["name", "color", "description"]).common_fields) :=
  compare_common_symm_unique_disjoint ["name", "color", "active"]
    ["name", "color", "description"]

/-- C6: empty input does nothing remotely: `create_data_on_model` on an empty
record list returns no ids, issues no create call and logs nothing, and
`migrate_data_between_servers` with zero source records issues zero create
calls and returns an empty id list. (Lines 103-104 and 148-157.) -/
theorem empty_input_no_remote_calls {V : Type}
    (oracle : Nat → Rec V → Except String Nat) (fi1 fi2 : FieldsInfo) :
    create_data_on_model oracle ([] : List (Rec V)) = ⟨[], [], []⟩ ∧
    (migrate_data_between_servers fi1 fi2 (Except.ok []) oracle).1 = [] ∧
    (migrate_data_between_servers fi1 fi2 (Except.ok ([] : List (Rec V)))
      oracle).2 = Except.ok [] :=
  ⟨rfl, rfl, rfl⟩

/-- C7: a failure on the source read path is fatal and atomic: the migration
issues no create call and returns the propagated error, so no partial data is
produced. (Lines 59-65 and 147-160.) -/
theorem read_failure_fatal {V : Type} (fi1 fi2 : FieldsInfo) (e : String)
    (oracle : Nat → Rec V → Except String Nat) :
    (migrate_data_between_servers (V := V) fi1 fi2 (Except.error e) oracle).1
        = [] ∧
    (migrate_data_between_servers (V := V) fi1 fi2 (Except.error e) oracle).2
        = Except.error e :=
  ⟨rfl, rfl⟩

/-- C9: an explicitly empty exclusion list is indistinguishable from passing
none: `exclude_types=[]` resolves to the default relational set, so
`get_filtered_fields` returns the same filtered list, and the same falsy
fallback applies to the `fields` argument of `get_data_from_model`.
(Lines 39 and 57-58.) -/
theorem empty_list_falsy_fallback (fi : FieldsInfo) :
    resolveExclude (some []) = defaultExcludeTypes ∧
    get_filtered_fields fi (some []) = get_filtered_fields fi none ∧
    resolveFields fi (some []) = resolveFields fi none :=
  ⟨rfl, rfl, rfl⟩

/-- C10: when the common-field set is empty but the source read returns
records, migration still issues one create call per source record, each with
an empty payload (the projection of each record is the empty mapping).
(Lines 154-157 and 103-114.) -/
theorem empty_common_still_creates {V : Type} (fi1 fi2 : FieldsInfo)
    (data : List (Rec V)) (oracle : Nat → Rec V → Except String Nat)
    (h : (compare_field_lists (get_filtered_fields fi1 none)
        (get_filtered_fields fi2 none)).common_fields = []) :
    (migrate_data_between_servers fi1 fi2 (Except.ok data) oracle).1 =
      data.map (fun _ => ([] : Rec V)) ∧
    (migrate_data_between_servers fi1 fi2 (Except.ok data) oracle).1.length =
      data.length := by
  have hcalls : (migrate_data_between_servers fi1 fi2 (Except.ok data)
      oracle).1 = data.map (fun _ => ([] : Rec V)) := by
    simp only [migrate_data_between_servers]
    rw [h, create_data_on_model_eq_loop, createLoop_calls]
    have hproj : projectRecord (V := V) [] = fun _ => [] :=
      funext fun r => rfl
    rw [hproj]
  exact ⟨hcalls, by rw [hcalls]; simp⟩

/-- Witness for C10 at a concrete input: two servers with no common field and
two source records still produce two create calls with empty payloads. -/
theorem empty_common_still_creates_witness :
    (migrate_data_between_servers [("a", "char")] [("b", "char")]
        (Except.ok [[("a", (1 : Nat))], []]) (fun _ _ => Except.ok 7)).1 =
      [[("a", (1 : Nat))], []].map (fun _ => ([] : Rec Nat)) ∧
    (migrate_data_between_servers [("a", "char")] [("b", "char")]
        (Except.ok [[("a", (1 : Nat))], []]) (fun _ _ => Except.ok 7)).1.length
      = [[("a", (1 : Nat))], []].length :=
  empty_common_still_creates [("a", "char")] [("b", "char")]
    [[("a", (1 : Nat))], []] (fun _ _ => Except.ok 7) (by decide)

/-- Helper: every field name is either kept by the filter or dropped by it. -/
theorem mem_fields_iff_filtered_or_excluded (fi : FieldsInfo)
    (ex : Option (List String)) (x : String) :
    x ∈ get_fields_from_model fi ↔
      x ∈ get_filtered_fields fi ex ∨ x ∈ excludedFieldNames fi ex := by
  simp only [get_fields_from_model, get_filtered_fields, excludedFieldNames,
    List.mem_map, List.mem_filter, decide_eq_true_eq]
  constructor
  · rintro ⟨p, hp, rfl⟩
    by_cases hpt : p.2 ∈ resolveExclude ex
    · exact Or.inr ⟨p, ⟨hp, hpt⟩, rfl⟩
    · exact Or.inl ⟨p, ⟨hp, hpt⟩, rfl⟩
  · rintro (⟨p, ⟨hp, _⟩, rfl⟩ | ⟨p, ⟨hp, _⟩, rfl⟩) <;> exact ⟨p, hp, rfl⟩

/-- Helper: with duplicate-free field names, no name is both kept and
dropped by the same exclusion list. -/
theorem filtered_not_excluded (fi : FieldsInfo) (ex : Option (List String))
    (hnd : (fi.map Prod.fst).Nodup) (x : String)
    (hf : x ∈ get_filtered_fields fi ex) :
    x ∉ excludedFieldNames fi ex := by
  intro hx
  simp only [get_filtered_fields, excludedFieldNames, List.mem_map,
    List.mem_filter, decide_eq_true_eq] at hf hx
  obtain ⟨p, ⟨hp, hpt⟩, rfl⟩ := hf
  obtain ⟨q, ⟨hq, hqt⟩, hqx⟩ := hx
  have hqp : q = p := List.inj_on_of_nodup_map hnd hq hp hqx
  rw [hqp] at hqt
  exact hpt hqt

/-- C3: for every introspection result and for both the default and any
custom exclusion list, the filtered field list and the fields whose type is in
the (resolved) exclusion list partition the full field list: their union is
`get_fields_from_model` and, when names are duplicate-free, they are disjoint.
(Lines 32-47 and 67-79.) -/
theorem filtered_excluded_partition (fi : FieldsInfo)
    (ex : Option (List String)) (hnd : (fi.map Prod.fst).Nodup) :
    (∀ x, x ∈ get_fields_from_model fi ↔
      x ∈ get_filtered_fields fi ex ∨ x ∈ excludedFieldNames fi ex) ∧
    (∀ x, x ∈ get_filtered_fields fi ex → x ∉ excludedFieldNames fi ex) :=
  ⟨fun x => mem_fields_iff_filtered_or_excluded fi ex x,
    fun x => filtered_not_excluded fi ex hnd x⟩

/-- Witness for C3 at a concrete schema with one scalar and one relational
field, under the default exclusion list. -/
theorem filtered_excluded_partition_witness :
    (∀ x, x ∈ get_fields_from_model [("name", "char"), ("partner_id", "many2one")] ↔
      x ∈ get_filtered_fields [("name", "char"), ("partner_id", "many2one")] none ∨
      x ∈ excludedFieldNames [("name", "char"), ("partner_id", "many2one")] none) ∧
    (∀ x, x ∈ get_filtered_fields [("name", "char"), ("partner_id", "many2one")] none →
      x ∉ excludedFieldNames [("name", "char"), ("partner_id", "many2one")] none) :=
  filtered_excluded_partition [("name", "char"), ("partner_id", "many2one")]
    none (by decide)

/-- C4: under the default exclusion list, the filtered field list contains no
field whose type is relational (`many2many`, `one2many` or `many2one`): its
intersection with the relational-type field names is empty. (Lines 39-44.) -/
theorem default_exclusion_no_relational (fi : FieldsInfo)
    (hnd : (fi.map Prod.fst).Nodup) (x : String)
    (hf : x ∈ get_filtered_fields fi none) :
    x ∉ (fi.filter (fun p => p.2 ∈ defaultExcludeTypes)).map Prod.fst :=
  filtered_not_excluded fi none hnd x hf

/-- Witness for C4: on a schema holding each relational kind, the kept field
`name` is not among the relational-type field names. -/
theorem default_exclusion_no_relational_witness :
    ("name" : String) ∉
      (([("name", "char"), ("partner_id", "many2one"), ("tag_ids", "many2many"),
          ("line_ids", "one2many")] : FieldsInfo).filter
        (fun p => p.2 ∈ defaultExcludeTypes)).map Prod.fst :=
  default_exclusion_no_relational
    [("name", "char"), ("partner_id", "many2one"), ("tag_ids", "many2many"),
      ("line_ids", "one2many")] (by decide) "name" (by decide)

/-- C8: authentication failure is fatal at construction: a falsy server reply
(absent identity or 0) makes `authenticate` raise and the constructor
propagate the same error, so no client value exists; on success the identity
is the stored `uid` and every `execute_kw` argument tuple built afterwards
carries it. (Lines 10-19 and 21-30.) -/
theorem authentication_fatal_at_construction
    (url db username password : String) (r : Option Nat) :
    ((r = none ∨ r = some 0) →
      authenticate r = Except.error authFailedMsg ∧
      OdooClient.init url db username password r =
        Except.error authFailedMsg) ∧
    (∀ c, OdooClient.init url db username password r = Except.ok c →
      r = some c.uid ∧ c.uid ≠ 0 ∧
      ∀ model method, (c.executeKwCall model method).uid = c.uid) := by
  constructor
  · rintro (rfl | rfl) <;> exact ⟨rfl, rfl⟩
  · intro c hc
    match r with
    | none => simp [OdooClient.init, authenticate] at hc
    | some u =>
      by_cases hu : u = 0
      · subst hu
        simp [OdooClient.init, authenticate] at hc
      · have hc' : c = ⟨url, db, username, password, u⟩ := by
          simp only [OdooClient.init, authenticate, if_neg hu,
            Except.ok.injEq] at hc
          exact hc.symm
        subst hc'
        exact ⟨rfl, hu, fun _ _ => rfl⟩

/-- Witness for C8: a falsy reply is rejected and a successful reply stores
the identity in the client and in its call tuples. -/
theorem authentication_fatal_witness :
    (authenticate none = Except.error authFailedMsg ∧
      OdooClient.init "u" "d" "n" "p" none = Except.error authFailedMsg) ∧
    ((some 5 : Option Nat) = some (OdooClient.mk "u" "d" "n" "p" 5).uid ∧
      (OdooClient.mk "u" "d" "n" "p" 5).uid ≠ 0 ∧
      ∀ model method,
        ((OdooClient.mk "u" "d" "n" "p" 5).executeKwCall model method).uid =
          (OdooClient.mk "u" "d" "n" "p" 5).uid) :=
  ⟨(authentication_fatal_at_construction "u" "d" "n" "p" none).1 (Or.inl rfl),
    (authentication_fatal_at_construction "u" "d" "n" "p" (some 5)).2
      (OdooClient.mk "u" "d" "n" "p" 5) rfl⟩

end OdooMigrate
